import Mathlib

/-!
Verification of the numeric core of the tupak repository:
`src/tupak/core/likelihood.py` and `src/tupak/gw/utils.py`.

Python floats are modelled as exact reals, except inside the
hyperparameter likelihood, where the IEEE special values (nan and the
two infinities) are the point of the claim and are modelled by a
dedicated `PyFloat` type.  Stateful Python objects are modelled as
records; in-place mutation of the parameter dictionary by the external
sampler is modelled by evaluating methods on a record whose
`parameters` field carries the current values.
-/

open Real

/- ## Python dictionaries

`dict` with string keys and possibly-`None` float values, modelled as an
insertion-ordered association list. -/

/-- Python `d.get(k)` membership part: `some v` when the key is present
(where `v` itself is `none` when the stored value is `None`). -/
def dictGet (d : List (String × Option ℝ)) (k : String) : Option (Option ℝ) :=
  match d.find? (fun kv => kv.1 == k) with
  | some kv => some kv.2
  | none => none

/-- Python dict assignment `d[k] = v`: updates the entry in place when the
key exists, otherwise appends it (insertion order). -/
def dictSet (d : List (String × Option ℝ)) (k : String) (v : Option ℝ) :
    List (String × Option ℝ) :=
  if d.any (fun kv => kv.1 == k) then
    d.map (fun kv => if kv.1 == k then (kv.1, v) else kv)
  else d ++ [(k, v)]

/- ## GaussianLikelihood (`src/tupak/core/likelihood.py`, lines 52-93) -/

/-- State of a `GaussianLikelihood` object.  The Python model function is
represented by its declared argument names (`inspect.getargspec(function).args`)
together with its implementation, which receives the independent-variable
array and the keyword-argument dictionary `model_parameters` (name / value
pairs).  The noise scale `sigma` is modelled as a scalar, the case the
claims exercise. -/
structure GaussianLikelihood where
  x : List ℝ
  y : List ℝ
  N : ℕ
  sigma : Option ℝ
  funcArgs : List String
  funcImpl : List ℝ → List (String × ℝ) → List ℝ
  parameters : List (String × Option ℝ)
  function_keys : List String

/-- `GaussianLikelihood.__init__` (lines 53-86):
`parameters = inspect.getargspec(function).args`; `parameters.pop(0)`
(the code is Python 2 and assumes at least one declared argument);
`self.parameters = dict.fromkeys(parameters)`;
`self.function_keys = self.parameters.keys()` — in Python 2 a list
snapshot taken before `sigma` is added; finally
`self.parameters['sigma'] = None` when no fixed `sigma` was supplied. -/
def GaussianLikelihood.init (x y : List ℝ) (funcArgs : List String)
    (funcImpl : List ℝ → List (String × ℝ) → List ℝ) (sigma : Option ℝ) :
    GaussianLikelihood :=
  let keys := funcArgs.tail
  let params : List (String × Option ℝ) := keys.map (fun k => (k, none))
  { x := x, y := y, N := x.length, sigma := sigma,
    funcArgs := funcArgs, funcImpl := funcImpl,
    parameters := if sigma.isNone then dictSet params ("sigma") none else params,
    function_keys := keys }

/-- `self.parameters.get('sigma', self.sigma)` (line 89): the current
`'sigma'` entry of the parameter mapping when the key is present, else the
construction-time value. -/
def GaussianLikelihood.sigmaCurrent (gl : GaussianLikelihood) : Option ℝ :=
  match dictGet gl.parameters ("sigma") with
  | some v => v
  | none => gl.sigma

/-- `model_parameters = {k: self.parameters[k] for k in self.function_keys}`
(line 90), as the keyword dictionary handed to the model function; `none`
when some parameter is missing from the mapping or still `None` (Python
would raise on the subsequent arithmetic). -/
def GaussianLikelihood.modelParameters (gl : GaussianLikelihood) :
    Option (List (String × ℝ)) :=
  gl.function_keys.mapM
    (fun k => (dictGet gl.parameters k).bind (fun v => v.map (fun r => (k, r))))

/-- `GaussianLikelihood.log_likelihood` (lines 88-93):
`res = self.y - self.function(self.x, **model_parameters)` and
`-0.5 * (np.sum((res / sigma)**2) + self.N * np.log(2*np.pi*sigma**2))`. -/
noncomputable def GaussianLikelihood.log_likelihood (gl : GaussianLikelihood) :
    Option ℝ :=
  match gl.sigmaCurrent, gl.modelParameters with
  | some s, some mp =>
    let res := List.zipWith (fun a b => a - b) gl.y (gl.funcImpl gl.x mp)
    some (-0.5 * ((res.map (fun r => (r / s) ^ 2)).sum
      + (gl.N : ℝ) * Real.log (2 * Real.pi * s ^ 2)))
  | _, _ => none

/- ## HyperparameterLikelihood (`src/tupak/core/likelihood.py`, lines 96-154)

The resampling step is probabilistic; the claims about it concern the
shapes of the arrays it produces, so it is embedded at the level of row
counts, with the pandas sampling contract modelled explicitly. -/

/-- Python 2 `min(a, b)` where `b` may be `None`: in Python 2 `None`
compares below every integer, so `min(n, None) = None`. -/
def py2min (a : ℕ) (b : Option ℕ) : Option ℕ :=
  match b with
  | none => none
  | some k => some (min a k)

/-- Number of rows returned by `pandas.DataFrame.sample(n)` on a frame of
`len` rows: `n = None` draws a single row (the pandas default), and `n`
larger than the frame raises `ValueError` (modelled as `none`). -/
def pandasSampleLen (len : ℕ) (n : Option ℕ) : Option ℕ :=
  match n with
  | none => if 1 ≤ len then some 1 else none
  | some k => if k ≤ len then some k else none

/-- Shape-level outcome of `resample_posteriors`. -/
structure ResampleShapes where
  max_samples : Option ℕ
  sampleArg : Option ℕ
  dataShape : Option (ℕ × ℕ)
deriving DecidableEq, Repr

/-- Shape-level semantics of `HyperparameterLikelihood.resample_posteriors`
(lines 141-154), for posteriors given by their row counts and with the
incoming `self.max_samples` supplied.  Faithful to the source: the loop
`self.max_samples = min(len(posterior), max_samples)` reads the LOCAL
argument `max_samples` (so only the last posterior matters), and the
sampling call is `posterior.sample(max_samples)`, again with the local
argument, not with `self.max_samples`.  `dataShape` is the shape of each
entry of the returned `data` dictionary after `np.array`, namely
(number of events, rows drawn per event); `none` when a sampling call
raises. -/
def resample_posteriors (posteriorLens : List ℕ) (selfMax : Option ℕ)
    (max_samples : Option ℕ) : ResampleShapes :=
  let m0 := if max_samples.isSome then max_samples else selfMax
  let mFinal := posteriorLens.foldl (fun _acc len => py2min len max_samples) m0
  let ok := posteriorLens.all (fun len => (pandasSampleLen len max_samples).isSome)
  { max_samples := mFinal,
    sampleArg := max_samples,
    dataShape := if ok then some (posteriorLens.length, max_samples.getD 1) else none }

/-- Shape-level outcome of `HyperparameterLikelihood.__init__`. -/
structure HyperInitShapes where
  resample : ResampleShapes
  n_posteriors : Option ℕ
  samples_per_posterior : Option ℕ
deriving DecidableEq, Repr

/-- Shape-level semantics of `HyperparameterLikelihood.__init__`
(lines 122-133): it stores the `max_samples` argument in
`self.max_samples`, then calls `self.resample_posteriors()` WITHOUT an
argument, and finally sets `n_posteriors` and `samples_per_posterior` to
`min(np.shape(...))` and `max(np.shape(...))` of the first data entry.
(The preceding source line `Likelihood.__init__(model.parameters)` also
omits `self` and raises a `TypeError` in Python 2 before any of this runs;
the definition models the resampling semantics the claim is about.) -/
def hyperparameter_init (posteriorLens : List ℕ) (max_samples : Option ℕ) :
    HyperInitShapes :=
  let r := resample_posteriors posteriorLens max_samples none
  { resample := r,
    n_posteriors := r.dataShape.map (fun sh => min sh.1 sh.2),
    samples_per_posterior := r.dataShape.map (fun sh => max sh.1 sh.2) }

/- ### Numeric part of `HyperparameterLikelihood.log_likelihood`

IEEE-754 doubles as produced by the numpy expression at lines 135-139:
finite values, the two infinities, and nan. -/

/-- An IEEE double as numpy handles it in the hyperparameter likelihood:
a finite real, `inf`, `-inf`, or `nan`. -/
inductive PyFloat where
  | fin : ℝ → PyFloat
  | pinf : PyFloat
  | ninf : PyFloat
  | nan : PyFloat

namespace PyFloat

/-- numpy elementwise division.  Finite by zero follows IEEE with the
numpy convention that a float zero divisor is the positive zero
(`0/0 = nan`, `x/0 = +-inf` by the sign of `x`); division by an infinity
gives zero.  nan propagates. -/
noncomputable def div : PyFloat → PyFloat → PyFloat
  | nan, _ => nan
  | _, nan => nan
  | pinf, pinf => nan
  | pinf, ninf => nan
  | ninf, pinf => nan
  | ninf, ninf => nan
  | pinf, fin b => if 0 ≤ b then pinf else ninf
  | ninf, fin b => if 0 ≤ b then ninf else pinf
  | fin _, pinf => fin 0
  | fin _, ninf => fin 0
  | fin a, fin b =>
    if b = 0 then (if a = 0 then nan else if 0 < a then pinf else ninf)
    else fin (a / b)

/-- IEEE addition: nan propagates, opposite infinities give nan. -/
noncomputable def add : PyFloat → PyFloat → PyFloat
  | nan, _ => nan
  | _, nan => nan
  | pinf, ninf => nan
  | ninf, pinf => nan
  | pinf, _ => pinf
  | _, pinf => pinf
  | ninf, _ => ninf
  | _, ninf => ninf
  | fin a, fin b => fin (a + b)

/-- `np.sum` of a one-dimensional array. -/
noncomputable def sum (l : List PyFloat) : PyFloat := l.foldl add (fin 0)

/-- numpy elementwise `np.log`: `log 0 = -inf`, negative gives nan. -/
noncomputable def log : PyFloat → PyFloat
  | nan => nan
  | pinf => pinf
  | ninf => nan
  | fin a => if a = 0 then ninf else if a < 0 then nan else fin (Real.log a)

/-- The largest finite double, the value `np.nan_to_num` substitutes
for `inf`. -/
noncomputable def maxFloat : ℝ := (2 - 2 ^ (-(52 : ℤ))) * 2 ^ (1023 : ℕ)

/-- `np.nan_to_num` on a scalar: `nan` becomes `0`, the infinities become
the extreme finite doubles, finite values pass through. -/
noncomputable def nan_to_num : PyFloat → PyFloat
  | nan => fin 0
  | pinf => fin maxFloat
  | ninf => fin (-maxFloat)
  | fin a => fin a

/-- The value is finite: neither nan nor an infinity. -/
def finite : PyFloat → Prop
  | fin _ => True
  | _ => False

/-- A non-negative finite value. -/
def nonnegFin : PyFloat → Prop
  | fin a => 0 ≤ a
  | _ => False

end PyFloat

/-- `HyperparameterLikelihood.log_likelihood` (lines 135-139), with the
probability evaluations supplied as the per-event, per-sample arrays that
`self.model.prob(self.data)` and `self.sampling_prior(self.data)` produce,
and `self.log_factor` as the finite float the constructor computed:
`np.nan_to_num(np.sum(np.log(np.sum(model_prob / sampling_prob, axis=-1)))
+ log_factor)`.  (The hyperparameter update `self.model.parameters.update`
only affects the arrays through `prob`, which is the supplied input.) -/
noncomputable def hyper_log_likelihood (model_prob sampling_prob : List (List PyFloat))
    (log_factor : ℝ) : PyFloat :=
  let ratios := List.zipWith (fun mrow srow => List.zipWith PyFloat.div mrow srow)
    model_prob sampling_prob
  PyFloat.nan_to_num
    (PyFloat.add (PyFloat.sum (ratios.map (fun row => PyFloat.log (PyFloat.sum row))))
      (PyFloat.fin log_factor))

/- ## Geometry and antenna utilities (`src/tupak/gw/utils.py`) -/

/-- Python `str.lower` as used on mode names (`mode.lower()`), restricted
to ASCII: letters `A`-`Z` are shifted to `a`-`z`. -/
def py_char_lower (c : Char) : Char :=
  if 65 ≤ c.toNat ∧ c.toNat ≤ 90 then Char.ofNat (c.toNat + 32) else c

/-- Python `mode.lower()` on a whole string. -/
def py_lower (s : String) : String := ⟨s.data.map py_char_lower⟩

/-- A 3-component `np.array`. -/
def vec3 (a b c : ℝ) : Fin 3 → ℝ := fun i =>
  match i with
  | 0 => a
  | 1 => b
  | 2 => c

theorem vec3_zero (a b c : ℝ) : vec3 a b c 0 = a := rfl

theorem vec3_one (a b c : ℝ) : vec3 a b c 1 = b := rfl

theorem vec3_two (a b c : ℝ) : vec3 a b c 2 = c := rfl

/-- `np.dot` of two 3-vectors. -/
noncomputable def dot3 (a b : Fin 3 → ℝ) : ℝ :=
  a 0 * b 0 + a 1 * b 1 + a 2 * b 2

/-- Modelled from the spec: `speed_of_light` is imported from
`tupak/core/utils.py`, which is not among the given sources; the SI value
in metres per second.  No claim depends on the value. -/
noncomputable def speed_of_light : ℝ := 299792458

/-- Modelled from the spec: `gps_time_to_gmst` is imported from
`tupak/core/utils.py`, which is not among the given sources.  The spec
describes it only as the Greenwich-mean-sidereal-time conversion; it is
modelled as a linear map from GPS seconds to a rotation angle.  No claim
depends on its exact form. -/
noncomputable def gps_time_to_gmst (time : ℝ) : ℝ :=
  time * (2 * Real.pi / 86164.0905)

/-- Modelled from the spec: `ra_dec_to_theta_phi` is imported from
`tupak/core/utils.py`, which is not among the given sources.  The standard
mapping from equatorial coordinates and sidereal time to polar angles:
`theta = pi/2 - dec`, `phi = ra - gmst`.  No claim depends on its exact
form. -/
noncomputable def ra_dec_to_theta_phi (ra dec gmst : ℝ) : ℝ × ℝ :=
  (Real.pi / 2 - dec, ra - gmst)

/-- The polar angle `theta` used by both geometry utilities. -/
noncomputable def theta_at (ra dec time : ℝ) : ℝ :=
  (ra_dec_to_theta_phi ra dec (gps_time_to_gmst time)).1

/-- The azimuthal angle `phi` used by both geometry utilities. -/
noncomputable def phi_at (ra dec time : ℝ) : ℝ :=
  (ra_dec_to_theta_phi ra dec (gps_time_to_gmst time)).2

/-- The propagation direction `omega` of `time_delay_geocentric`
(lines 74-76): `np.array([sin(theta)*cos(phi), sin(theta)*sin(phi),
cos(theta)])`. -/
noncomputable def propagation_direction (ra dec time : ℝ) : Fin 3 → ℝ :=
  vec3 (Real.sin (theta_at ra dec time) * Real.cos (phi_at ra dec time))
    (Real.sin (theta_at ra dec time) * Real.sin (phi_at ra dec time))
    (Real.cos (theta_at ra dec time))

/-- `time_delay_geocentric` (`src/tupak/gw/utils.py`, lines 51-78):
`np.dot(omega, detector2 - detector1) / speed_of_light`. -/
noncomputable def time_delay_geocentric (detector1 detector2 : Fin 3 → ℝ)
    (ra dec time : ℝ) : ℝ :=
  dot3 (propagation_direction ra dec time) (fun i => detector2 i - detector1 i)
    / speed_of_light

/- ### Polarization tensors (`src/tupak/gw/utils.py`, lines 81-130) -/

/-- Earth-frame basis vector `u` (line 109). -/
noncomputable def frame_u (theta phi : ℝ) : Fin 3 → ℝ :=
  vec3 (Real.cos phi * Real.cos theta) (Real.cos theta * Real.sin phi)
    (-Real.sin theta)

/-- Earth-frame basis vector `v` (line 110). -/
noncomputable def frame_v (theta phi : ℝ) : Fin 3 → ℝ :=
  vec3 (-Real.sin phi) (Real.cos phi) 0

/-- Wave-frame vector `m = -u*sin(psi) - v*cos(psi)` (line 111). -/
noncomputable def wave_m (theta phi psi : ℝ) : Fin 3 → ℝ := fun i =>
  -frame_u theta phi i * Real.sin psi - frame_v theta phi i * Real.cos psi

/-- Wave-frame vector `n = -u*cos(psi) + v*sin(psi)` (line 112). -/
noncomputable def wave_n (theta phi psi : ℝ) : Fin 3 → ℝ := fun i =>
  -frame_u theta phi i * Real.cos psi + frame_v theta phi i * Real.sin psi

/-- `omega = np.cross(m, n)` (line 121). -/
noncomputable def wave_w (theta phi psi : ℝ) : Fin 3 → ℝ :=
  vec3 (wave_m theta phi psi 1 * wave_n theta phi psi 2
      - wave_m theta phi psi 2 * wave_n theta phi psi 1)
    (wave_m theta phi psi 2 * wave_n theta phi psi 0
      - wave_m theta phi psi 0 * wave_n theta phi psi 2)
    (wave_m theta phi psi 0 * wave_n theta phi psi 1
      - wave_m theta phi psi 1 * wave_n theta phi psi 0)

/-- `np.einsum('i,j->ij', a, b)`: the outer product. -/
noncomputable def outer (a b : Fin 3 → ℝ) : Fin 3 → Fin 3 → ℝ := fun i j =>
  a i * b j

/-- The `plus` branch (line 115). -/
noncomputable def plus_tensor (theta phi psi : ℝ) : Fin 3 → Fin 3 → ℝ := fun i j =>
  outer (wave_m theta phi psi) (wave_m theta phi psi) i j
    - outer (wave_n theta phi psi) (wave_n theta phi psi) i j

/-- The `cross` branch (line 117). -/
noncomputable def cross_tensor (theta phi psi : ℝ) : Fin 3 → Fin 3 → ℝ := fun i j =>
  outer (wave_m theta phi psi) (wave_n theta phi psi) i j
    + outer (wave_n theta phi psi) (wave_m theta phi psi) i j

/-- The `breathing` branch (line 119). -/
noncomputable def breathing_tensor (theta phi psi : ℝ) : Fin 3 → Fin 3 → ℝ := fun i j =>
  outer (wave_m theta phi psi) (wave_m theta phi psi) i j
    + outer (wave_n theta phi psi) (wave_n theta phi psi) i j

/-- The `longitudinal` branch (line 123). -/
noncomputable def longitudinal_tensor (theta phi psi : ℝ) : Fin 3 → Fin 3 → ℝ := fun i j =>
  Real.sqrt 2 * outer (wave_w theta phi psi) (wave_w theta phi psi) i j

/-- The `x` branch (line 125). -/
noncomputable def x_tensor (theta phi psi : ℝ) : Fin 3 → Fin 3 → ℝ := fun i j =>
  outer (wave_m theta phi psi) (wave_w theta phi psi) i j
    + outer (wave_w theta phi psi) (wave_m theta phi psi) i j

/-- The `y` branch (line 127). -/
noncomputable def y_tensor (theta phi psi : ℝ) : Fin 3 → Fin 3 → ℝ := fun i j =>
  outer (wave_n theta phi psi) (wave_w theta phi psi) i j
    + outer (wave_w theta phi psi) (wave_n theta phi psi) i j

/-- `get_polarization_tensor` (`src/tupak/gw/utils.py`, lines 81-130).
Each branch compares `mode.lower()` against a lowercase name; the unknown
mode falls through to `logging.warning(...)` followed by `return None`,
modelled as `none`. -/
noncomputable def get_polarization_tensor (ra dec time psi : ℝ) (mode : String) :
    Option (Fin 3 → Fin 3 → ℝ) :=
  if py_lower mode = ("plus") then
    some (plus_tensor (theta_at ra dec time) (phi_at ra dec time) psi)
  else if py_lower mode = ("cross") then
    some (cross_tensor (theta_at ra dec time) (phi_at ra dec time) psi)
  else if py_lower mode = ("breathing") then
    some (breathing_tensor (theta_at ra dec time) (phi_at ra dec time) psi)
  else if py_lower mode = ("longitudinal") then
    some (longitudinal_tensor (theta_at ra dec time) (phi_at ra dec time) psi)
  else if py_lower mode = ("x") then
    some (x_tensor (theta_at ra dec time) (phi_at ra dec time) psi)
  else if py_lower mode = ("y") then
    some (y_tensor (theta_at ra dec time) (phi_at ra dec time) psi)
  else none

/-- The transpose of a 3x3 tensor. -/
noncomputable def transpose3 (T : Fin 3 → Fin 3 → ℝ) : Fin 3 → Fin 3 → ℝ :=
  fun i j => T j i

/-- The trace of a 3x3 tensor. -/
noncomputable def trace3 (T : Fin 3 → Fin 3 → ℝ) : ℝ := T 0 0 + T 1 1 + T 2 2

/- ## Inner-product engine (`src/tupak/gw/utils.py`, lines 191-253) -/

/-- The detector attributes the SNR functions read. -/
structure Interferometer where
  frequency_domain_strain : List ℂ
  power_spectral_density_array : List ℝ

/-- `noise_weighted_inner_product` (lines 191-212):
`integrand = np.conj(aa) * bb / power_spectral_density` and
`4 / time_duration * np.sum(integrand)`.  The value is complex; no real
part is taken in the source. -/
noncomputable def noise_weighted_inner_product (aa bb : List ℂ)
    (power_spectral_density : List ℝ) (time_duration : ℝ) : ℂ :=
  ((4 / time_duration : ℝ) : ℂ) *
    (List.zipWith (fun (z : ℂ) (p : ℝ) => z / (p : ℂ))
      (List.zipWith (fun a b => (starRingEnd ℂ) a * b) aa bb)
      power_spectral_density).sum

/-- `matched_filter_snr_squared` (lines 215-234). -/
noncomputable def matched_filter_snr_squared (signal : List ℂ)
    (interferometer : Interferometer) (time_duration : ℝ) : ℂ :=
  noise_weighted_inner_product signal interferometer.frequency_domain_strain
    interferometer.power_spectral_density_array time_duration

/-- `optimal_snr_squared` (lines 237-253). -/
noncomputable def optimal_snr_squared (signal : List ℂ)
    (interferometer : Interferometer) (time_duration : ℝ) : ℂ :=
  noise_weighted_inner_product signal signal
    interferometer.power_spectral_density_array time_duration

/- ## Helper lemmas -/

/-- Keys after a Python dict assignment: the existing keys plus the
assigned one. -/
theorem dictSet_keys (d : List (String × Option ℝ)) (key : String) (v : Option ℝ)
    (k : String) :
    k ∈ (dictSet d key v).map Prod.fst ↔ (k ∈ d.map Prod.fst ∨ k = key) := by
  unfold dictSet
  by_cases h : d.any (fun kv => kv.1 == key)
  · rw [if_pos h, List.map_map]
    have hkeys : List.map (Prod.fst ∘ fun kv => if kv.1 == key then (kv.1, v) else kv) d
        = List.map Prod.fst d := by
      apply List.map_congr_left
      intro kv _
      show (if kv.1 == key then (kv.1, v) else kv).1 = kv.1
      split <;> rfl
    rw [hkeys]
    constructor
    · exact Or.inl
    · rintro (hk | hk)
      · exact hk
      · subst hk
        rcases List.any_eq_true.mp h with ⟨kv, hkv, hbeq⟩
        exact List.mem_map.mpr ⟨kv, hkv, by simpa using hbeq⟩
  · rw [if_neg h, List.map_append, List.mem_append]
    simp

/-- Assigning `None` preserves the all-values-`None` invariant. -/
theorem dictSet_vals (d : List (String × Option ℝ)) (key : String)
    (hvals : ∀ kv ∈ d, kv.2 = none) :
    ∀ kv ∈ dictSet d key none, kv.2 = none := by
  unfold dictSet
  by_cases h : d.any (fun kv => kv.1 == key)
  · rw [if_pos h]
    intro kv hkv
    rcases List.mem_map.mp hkv with ⟨kv0, hkv0, heq⟩
    rw [← heq]
    show (if kv0.1 == key then (kv0.1, none) else kv0).2 = none
    split
    · rfl
    · exact hvals kv0 hkv0
  · rw [if_neg h]
    intro kv hkv
    rcases List.mem_append.mp hkv with hkv | hkv
    · exact hvals kv hkv
    · simp at hkv; rw [hkv]

/-- `np.nan_to_num` always yields a finite value. -/
theorem nan_to_num_finite (t : PyFloat) : (PyFloat.nan_to_num t).finite := by
  cases t <;> trivial

/-- The noise-weighted integrand of a signal against itself under a
positive PSD sums to a value with zero imaginary part and non-negative
real part. -/
theorem self_integrand_sum_im_re (s : List ℂ) (psd : List ℝ)
    (h : ∀ p ∈ psd, 0 < p) :
    ((List.zipWith (fun (z : ℂ) (p : ℝ) => z / (p : ℂ))
      (List.zipWith (fun a b => (starRingEnd ℂ) a * b) s s) psd).sum).im = 0 ∧
    0 ≤ ((List.zipWith (fun (z : ℂ) (p : ℝ) => z / (p : ℂ))
      (List.zipWith (fun a b => (starRingEnd ℂ) a * b) s s) psd).sum).re := by
  induction s generalizing psd with
  | nil => simp
  | cons a rest ih =>
    cases psd with
    | nil => simp
    | cons p ps =>
      have hp : 0 < p := h p (by simp)
      obtain ⟨him, hre⟩ := ih ps (fun q hq => h q (by simp [hq]))
      have hterm : ((starRingEnd ℂ) a * a / (p : ℂ))
          = ((Complex.normSq a / p : ℝ) : ℂ) := by
        rw [mul_comm, Complex.mul_conj, Complex.ofReal_div]
      simp only [List.zipWith_cons_cons, List.sum_cons, Complex.add_im, Complex.add_re,
        hterm, Complex.ofReal_im, Complex.ofReal_re]
      constructor
      · rw [him]; ring
      · have : 0 ≤ Complex.normSq a / p := div_nonneg (Complex.normSq_nonneg a) hp.le
        linarith

/-- The linear model of the specification scenario,
`f(x, m, c) = m*x + c`: a Python function reading its keyword arguments
`m` and `c`. -/
noncomputable def linear_model : List ℝ → List (String × ℝ) → List ℝ :=
  fun x p => x.map (fun xi =>
    (((p.find? (fun kv => kv.1 == ("m"))).map Prod.snd).getD 0) * xi
      + (((p.find? (fun kv => kv.1 == ("c"))).map Prod.snd).getD 0))

/-- The specification scenario: `GaussianLikelihood` built from the linear
model with fixed `sigma = 1`, `x = y = [0, 1, 2]`, after the sampler has
set `parameters['m'] = 1` and `parameters['c'] = 0`. -/
noncomputable def glScenario : GaussianLikelihood :=
  let gl0 := GaussianLikelihood.init [0, 1, 2] [0, 1, 2] [("x"), ("m"), ("c")]
    linear_model (some 1)
  { gl0 with
    parameters := dictSet (dictSet gl0.parameters ("m") (some 1)) ("c") (some 0) }

/- ## The claims -/

/-- C1: for a `GaussianLikelihood` over arrays `x`, `y` of equal length
`N` whose current parameter mapping resolves `sigma` (the `'sigma'` entry
when present, otherwise the construction-time value) and all model
parameters, `log_likelihood()` returns
`-0.5 * (sum((r/sigma)^2) + N*log(2*pi*sigma^2))` with
`r = y - model(x, **fit_parameters)`. -/
theorem C1_gaussian_log_likelihood (gl : GaussianLikelihood) (s : ℝ)
    (mp : List (String × ℝ))
    (hxy : gl.y.length = gl.x.length) (hN : gl.N = gl.x.length)
    (hs : gl.sigmaCurrent = some s) (hmp : gl.modelParameters = some mp) :
    gl.log_likelihood = some (-0.5 * (((List.zipWith (fun a b => a - b) gl.y
        (gl.funcImpl gl.x mp)).map (fun r => (r / s) ^ 2)).sum
      + (gl.N : ℝ) * Real.log (2 * Real.pi * s ^ 2))) := by
  unfold GaussianLikelihood.log_likelihood
  rw [hs, hmp]

/-- C1 witness: the concrete scenario of the claim — linear model
`f(x, m, c) = m*x + c`, `sigma` fixed to `1`, `x = y = [0, 1, 2]`,
parameters `m = 1`, `c = 0` — evaluates to `-0.5 * (0 + 3*log(2*pi))`. -/
theorem C1_gaussian_log_likelihood_witness :
    glScenario.y.length = glScenario.x.length ∧
    glScenario.N = glScenario.x.length ∧
    glScenario.sigmaCurrent = some 1 ∧
    glScenario.modelParameters = some [(("m"), 1), (("c"), 0)] ∧
    glScenario.log_likelihood = some (-0.5 * (0 + 3 * Real.log (2 * Real.pi))) := by
  refine ⟨rfl, rfl, rfl, rfl, ?_⟩
  have h := C1_gaussian_log_likelihood glScenario 1 [(("m"), 1), (("c"), 0)]
    rfl rfl rfl rfl
  have h2 : glScenario.log_likelihood
      = some (-0.5 * ((((0:ℝ) - (1 * 0 + 0)) / 1) ^ 2
        + ((((1:ℝ) - (1 * 1 + 0)) / 1) ^ 2 + (((((2:ℝ) - (1 * 2 + 0)) / 1) ^ 2) + 0))
      + ((3:ℕ) : ℝ) * Real.log (2 * Real.pi * 1 ^ 2))) := h.trans (by rfl)
  rw [h2]
  norm_num

/-- C2 counter-evidence: for posteriors of sizes 500 and 300 constructed
with `max_samples = 300`, the constructor calls `resample_posteriors()`
without forwarding the cap, so every posterior is sampled with
`n = None` — one row per event, not 300.  The resulting data shape is
`(2, 1)`, `n_posteriors = min(shape) = 1`, `samples_per_posterior =
max(shape) = 2`, `self.max_samples` ends as `None`, and the claimed shape
`(2, 300)` is not produced.  Only an explicit external re-call
`resample_posteriors(max_samples=300)` yields 300 rows per event. -/
theorem C2_resample_cap_ignored :
    (hyperparameter_init [500, 300] (some 300)).resample.sampleArg = none ∧
    (hyperparameter_init [500, 300] (some 300)).resample.max_samples = none ∧
    (hyperparameter_init [500, 300] (some 300)).resample.dataShape = some (2, 1) ∧
    (hyperparameter_init [500, 300] (some 300)).n_posteriors = some 1 ∧
    (hyperparameter_init [500, 300] (some 300)).samples_per_posterior = some 2 ∧
    (hyperparameter_init [500, 300] (some 300)).resample.dataShape ≠ some (2, 300) ∧
    (resample_posteriors [500, 300] none (some 300)).dataShape = some (2, 300) := by
  decide

/-- C3: at `GaussianLikelihood` construction the inferred fit parameters
are exactly the model function's declared argument names with the first
(dependent-variable) argument excluded; when `sigma` is not supplied the
key `sigma` is additionally present in the parameter mapping; and every
inferred parameter value starts undefined (`None`). -/
theorem C3_inferred_parameters (x y : List ℝ) (a0 : String) (rest : List String)
    (impl : List ℝ → List (String × ℝ) → List ℝ) (sigma : Option ℝ) :
    (GaussianLikelihood.init x y (a0 :: rest) impl sigma).function_keys = rest ∧
    (∀ k : String,
      k ∈ (GaussianLikelihood.init x y (a0 :: rest) impl sigma).parameters.map Prod.fst
        ↔ (k ∈ rest ∨ (sigma = none ∧ k = "sigma"))) ∧
    (∀ kv ∈ (GaussianLikelihood.init x y (a0 :: rest) impl sigma).parameters,
      kv.2 = none) := by
  unfold GaussianLikelihood.init
  refine ⟨rfl, ?_, ?_⟩
  · intro k
    cases sigma with
    | none =>
      simp only [Option.isNone_none, if_true]
      rw [dictSet_keys]
      simp [List.map_map, Function.comp]
    | some s =>
      simp [List.map_map, Function.comp]
  · cases sigma with
    | none =>
      simp only [Option.isNone_none, if_true]
      apply dictSet_vals
      intro kv hkv
      rcases List.mem_map.mp hkv with ⟨k0, _, heq⟩
      rw [← heq]
    | some s =>
      intro kv hkv
      simp only [Option.isNone_some, Bool.false_eq_true, if_false] at hkv
      rcases List.mem_map.mp hkv with ⟨k0, _, heq⟩
      rw [← heq]

/-- C4 counter-evidence: for every sky position, time and polarization
angle, `get_polarization_tensor` applied to a mode name outside the six
recognized ones (here `'scalar'`) silently returns `None` (after a log
warning) instead of failing with an invalid-mode error. -/
theorem C4_unknown_mode_silent_none (ra dec time psi : ℝ) :
    get_polarization_tensor ra dec time psi ("scalar") = none := rfl

/-- C5: `HyperparameterLikelihood.log_likelihood()` returns a finite value
— never nan or an infinity — whenever the population-model and
sampling-prior probability evaluations are non-negative finite arrays
(zeros allowed): the final `np.nan_to_num` coerces every non-finite
intermediate to a finite value. -/
theorem C5_hyper_log_likelihood_finite (model_prob sampling_prob : List (List PyFloat))
    (log_factor : ℝ)
    (hm : ∀ row ∈ model_prob, ∀ z ∈ row, z.nonnegFin)
    (hs : ∀ row ∈ sampling_prob, ∀ z ∈ row, z.nonnegFin) :
    (hyper_log_likelihood model_prob sampling_prob log_factor).finite := by
  unfold hyper_log_likelihood
  exact nan_to_num_finite _

/-- C5 witness: a single event whose probability arrays contain a zero
(the ratio `0/0` is nan, which `nan_to_num` coerces) still yields a finite
log-likelihood. -/
theorem C5_hyper_log_likelihood_finite_witness :
    (∀ row ∈ [[PyFloat.fin 1, PyFloat.fin 0]], ∀ z ∈ row, z.nonnegFin) ∧
    (hyper_log_likelihood [[PyFloat.fin 1, PyFloat.fin 0]]
      [[PyFloat.fin 1, PyFloat.fin 0]] 0).finite := by
  have hmem : ∀ row ∈ [[PyFloat.fin 1, PyFloat.fin 0]], ∀ z ∈ row, z.nonnegFin := by
    intro row hrow z hz
    simp only [List.mem_singleton] at hrow
    subst hrow
    rcases List.mem_cons.mp hz with hz | hz
    · subst hz; show (0:ℝ) ≤ 1; norm_num
    · simp only [List.mem_singleton] at hz
      subst hz; show (0:ℝ) ≤ 0; norm_num
  exact ⟨hmem, C5_hyper_log_likelihood_finite _ _ 0 hmem hmem⟩

/-- C6: `time_delay_geocentric` is antisymmetric in its two detector
vertices: swapping the detectors negates the delay, for every sky
position and time, as the defining formula
`dot(omega, detector2 - detector1) / speed_of_light` implies. -/
theorem C6_time_delay_antisymmetry (d1 d2 : Fin 3 → ℝ) (ra dec time : ℝ) :
    time_delay_geocentric d1 d2 ra dec time
      = -time_delay_geocentric d2 d1 ra dec time := by
  unfold time_delay_geocentric dot3
  ring

/-- C7: for every sky position, time and polarization angle, the tensors
returned by `get_polarization_tensor` for the modes `plus`, `cross` and
`breathing` equal their own transposes, and the `plus` and `cross`
tensors are traceless (exactly, in real arithmetic). -/
theorem C7_polarization_symmetry_trace (ra dec time psi : ℝ) :
    (∃ T, get_polarization_tensor ra dec time psi ("plus") = some T ∧
      transpose3 T = T ∧ trace3 T = 0) ∧
    (∃ T, get_polarization_tensor ra dec time psi ("cross") = some T ∧
      transpose3 T = T ∧ trace3 T = 0) ∧
    (∃ T, get_polarization_tensor ra dec time psi ("breathing") = some T ∧
      transpose3 T = T) := by
  refine ⟨⟨plus_tensor (theta_at ra dec time) (phi_at ra dec time) psi, rfl, ?_, ?_⟩,
    ⟨cross_tensor (theta_at ra dec time) (phi_at ra dec time) psi, rfl, ?_, ?_⟩,
    ⟨breathing_tensor (theta_at ra dec time) (phi_at ra dec time) psi, rfl, ?_⟩⟩
  · funext i j
    simp only [transpose3, plus_tensor, outer]
    ring
  · simp only [trace3, plus_tensor, outer, wave_m, wave_n, frame_u, frame_v,
      vec3_zero, vec3_one, vec3_two]
    linear_combination (Real.sin psi ^ 2 - Real.cos psi ^ 2)
        * (Real.cos (theta_at ra dec time) ^ 2 - 1)
        * Real.sin_sq_add_cos_sq (phi_at ra dec time)
      + (Real.sin psi ^ 2 - Real.cos psi ^ 2)
        * Real.sin_sq_add_cos_sq (theta_at ra dec time)
  · funext i j
    simp only [transpose3, cross_tensor, outer]
    ring
  · simp only [trace3, cross_tensor, outer, wave_m, wave_n, frame_u, frame_v,
      vec3_zero, vec3_one, vec3_two]
    linear_combination (2 * Real.sin psi * Real.cos psi)
        * (Real.cos (theta_at ra dec time) ^ 2 - 1)
        * Real.sin_sq_add_cos_sq (phi_at ra dec time)
      + (2 * Real.sin psi * Real.cos psi)
        * Real.sin_sq_add_cos_sq (theta_at ra dec time)
  · funext i j
    simp only [transpose3, breathing_tensor, outer]
    ring

/-- C8: both SNR statistics delegate entirely to
`noise_weighted_inner_product` — the matched filter pairs the signal with
the detector strain, the optimal SNR pairs it with itself — and when the
detector's `frequency_domain_strain` equals the signal exactly (PSD held
fixed) the two coincide. -/
theorem C8_snr_delegation (s : List ℂ) (ifo : Interferometer) (T : ℝ) :
    matched_filter_snr_squared s ifo T
      = noise_weighted_inner_product s ifo.frequency_domain_strain
          ifo.power_spectral_density_array T ∧
    optimal_snr_squared s ifo T
      = noise_weighted_inner_product s s ifo.power_spectral_density_array T ∧
    (ifo.frequency_domain_strain = s →
      matched_filter_snr_squared s ifo T = optimal_snr_squared s ifo T) := by
  refine ⟨rfl, rfl, fun h => ?_⟩
  simp only [matched_filter_snr_squared, optimal_snr_squared, h]

/-- C8 witness: a concrete detector whose strain equals the signal. -/
theorem C8_snr_delegation_witness :
    (Interferometer.mk [1] [1]).frequency_domain_strain = [(1 : ℂ)] ∧
    matched_filter_snr_squared [(1 : ℂ)] (Interferometer.mk [1] [1]) 1
      = optimal_snr_squared [(1 : ℂ)] (Interferometer.mk [1] [1]) 1 :=
  ⟨rfl, (C8_snr_delegation [(1 : ℂ)] (Interferometer.mk [1] [1]) 1).2.2 rfl⟩

/-- C9: for a strictly positive PSD array and positive duration,
`optimal_snr_squared` — the noise-weighted inner product of the signal
with itself — is real (zero imaginary part) and non-negative. -/
theorem C9_optimal_snr_real_nonneg (s : List ℂ) (ifo : Interferometer) (T : ℝ)
    (hT : 0 < T) (hpsd : ∀ p ∈ ifo.power_spectral_density_array, 0 < p) :
    (optimal_snr_squared s ifo T).im = 0 ∧ 0 ≤ (optimal_snr_squared s ifo T).re := by
  obtain ⟨him, hre⟩ := self_integrand_sum_im_re s ifo.power_spectral_density_array hpsd
  unfold optimal_snr_squared noise_weighted_inner_product
  constructor
  · rw [Complex.mul_im, Complex.ofReal_re, Complex.ofReal_im, him, mul_zero, zero_mul,
      add_zero]
  · rw [Complex.mul_re, Complex.ofReal_re, Complex.ofReal_im, zero_mul, sub_zero]
    exact mul_nonneg (div_nonneg (by norm_num) hT.le) hre

/-- C9 witness: the concrete signal `[i]` against a unit PSD over a unit
duration. -/
theorem C9_optimal_snr_real_nonneg_witness :
    (0 : ℝ) < 1 ∧ (∀ p ∈ (Interferometer.mk [0] [1]).power_spectral_density_array, 0 < p) ∧
    ((optimal_snr_squared [Complex.I] (Interferometer.mk [0] [1]) 1).im = 0 ∧
      0 ≤ (optimal_snr_squared [Complex.I] (Interferometer.mk [0] [1]) 1).re) := by
  have hpsd : ∀ p ∈ (Interferometer.mk [0] [1]).power_spectral_density_array, 0 < p := by
    intro p hp
    simp only [List.mem_singleton] at hp
    subst hp
    norm_num
  exact ⟨by norm_num, hpsd,
    C9_optimal_snr_real_nonneg [Complex.I] (Interferometer.mk [0] [1]) 1 (by norm_num) hpsd⟩

/-- C10: `get_polarization_tensor` reads the mode name only through
`mode.lower()`, so any two mode strings that agree after lowering — in
particular any casing of the six recognized names and its all-lowercase
form — produce identical results. -/
theorem C10_mode_case_insensitive (ra dec time psi : ℝ) (mode1 mode2 : String)
    (h : py_lower mode1 = py_lower mode2) :
    get_polarization_tensor ra dec time psi mode1
      = get_polarization_tensor ra dec time psi mode2 := by
  simp only [get_polarization_tensor, h]

/-- C10 witness: the casing `'Plus'` gives the same tensor as `'plus'`. -/
theorem C10_mode_case_insensitive_witness :
    py_lower ("Plus") = py_lower ("plus") ∧
    get_polarization_tensor 0 0 0 0 ("Plus") = get_polarization_tensor 0 0 0 0 ("plus") :=
  ⟨by decide, C10_mode_case_insensitive 0 0 0 0 ("Plus") ("plus") (by decide)⟩
